import Mathlib

/-!
Shallow embedding of the qiskit-metal design core:
`qiskit_metal/designs/design_base.py` (class DesignBase and the free
function make_connector) and the consumed interface of
`qiskit_metal/_gui/widgets/components_model.py` (ComponentsTableModel).

The Python `Dict` (an insertion-ordered string-keyed dictionary) is
embedded as an association list `List (String × α)` kept in insertion
order.  Python exceptions (KeyError from dict.pop without default,
NameError from an undefined identifier, an exception escaping make())
are embedded as `Option`: `none` means the call raised.
-/

set_option autoImplicit false

namespace DesignModel

/-- Membership test for Python ordered dicts: `k in d`. -/
def dictContains {α : Type} (d : List (String × α)) (k : String) : Bool :=
  d.any (fun p => p.1 == k)

/-- Lookup `d[k]` returning `none` when the key is absent. -/
def dictGet {α : Type} : List (String × α) → String → Option α
  | [], _ => none
  | p :: rest, k => if p.1 == k then some p.2 else dictGet rest k

/-- Python dict assignment `d[k] = v`: an existing key keeps its
insertion position and gets the new value; a fresh key is appended. -/
def dictInsert {α : Type} (d : List (String × α)) (k : String) (v : α) :
    List (String × α) :=
  if dictContains d k then
    d.map (fun p => if p.1 == k then (k, v) else p)
  else
    d ++ [(k, v)]

/-- Python `d.pop(k, None)` (pop with a default): removes the entry for
`k` when present, otherwise leaves the dict unchanged. -/
def dictPopD {α : Type} (d : List (String × α)) (k : String) :
    List (String × α) :=
  d.filter (fun p => !(p.1 == k))

/-- A component as the design registry consumes it
(design_base.py stores externally constructed component objects; the
component capability itself is from qiskit_metal.components.base, which
is not under src/).
Modelled from the spec: the Component capability of spec sections 3 and 6:
`name`, `class_name`, `module_name`, a `status` string, the
`connector_names` collection consulted by `_delete_component`, the
`is_component` capability probe used by `make_all_components` and
`add_connector`, and whether this component's `make()` raises
(`make_fails`). -/
structure Component where
  name : String
  class_name : String
  module_name : String
  status : String
  is_component : Bool
  connector_names : List String
  make_fails : Bool
  deriving Repr, DecidableEq

/-- Modelled from the spec: a component's `make()` is component code not
under src/.  Spec sections 4.3 and 6: a successful `make()` drives the
component's status to `good`; a failing one raises (embedded as `none`;
whatever partial state the raising `make` left behind is not observable
through the claims, so the component is kept unchanged). -/
def makeComponent (c : Component) : Option Component :=
  if c.make_fails then none else some { c with status := "good" }

/-- A connector dictionary as built by `make_connector`
(design_base.py lines 378-386).  Coordinates are embedded as real
numbers (the source uses numpy floats). -/
structure Connector where
  points : List (ℝ × ℝ)
  middle : ℝ × ℝ
  normal : ℝ × ℝ
  tangent : ℝ × ℝ
  width : ℝ
  chip : String
  parent_name : String

/-- Modelled from the spec: `draw.vec_unit_norm` (qiskit_metal.draw) is
not under src/.  Spec section 4.2: direction vector `d = p1 - p0`,
unit tangent `d / |d|`, and the 90-degree-rotated tangent as normal.
Division by a zero norm is the degenerate case the spec flags
(in numpy it produces NaN; in this real-number embedding `x / 0 = 0`). -/
noncomputable def vec_unit_norm (p0 p1 : ℝ × ℝ) :
    (ℝ × ℝ) × (ℝ × ℝ) × (ℝ × ℝ) :=
  let d : ℝ × ℝ := (p1.1 - p0.1, p1.2 - p0.2)
  let n : ℝ := Real.sqrt (d.1 ^ 2 + d.2 ^ 2)
  let t : ℝ × ℝ := (d.1 / n, d.2 / n)
  (d, t, (-t.2, t.1))

/-- make_connector (design_base.py lines 356-386).  The
`assert len(points) == 2` is embedded as `none` on any list that does
not have exactly two points; otherwise the connector dictionary is
built exactly as in the source (middle from the point sum, normal
negated when `flip`, width as the norm of the direction vector). -/
noncomputable def make_connector (points : List (ℝ × ℝ))
    (parent_name : String) (flip : Bool) (chip : String) :
    Option Connector :=
  match points with
  | [p0, p1] =>
    let v := vec_unit_norm p0 p1
    let vec_dist := v.1
    let vec_dist_unit := v.2.1
    let vec_normal0 := v.2.2
    let vec_normal := if flip then (-vec_normal0.1, -vec_normal0.2) else vec_normal0
    some { points := points
           middle := ((p0.1 + p1.1) / 2, (p0.2 + p1.2) / 2)
           normal := vec_normal
           tangent := vec_dist_unit
           width := Real.sqrt (vec_dist.1 ^ 2 + vec_dist.2 ^ 2)
           chip := chip
           parent_name := parent_name }
  | _ => none

/-- The design registry state: the four ordered dictionaries created in
DesignBase.__init__ (design_base.py lines 54-58). -/
structure Registry where
  components : List (String × Component)
  connectors : List (String × Connector)
  _variables : List (String × String)
  _chips : List (String × String)

/-- delete_all_connectors (design_base.py lines 121-126): clears the
connector dict.  (The source returns the now-empty dict; only the state
matters here.) -/
def delete_all_connectors (r : Registry) : Registry :=
  { r with connectors := [] }

/-- delete_all_components (design_base.py lines 128-135): clears the
component dict, then clears all connectors. -/
def delete_all_components (r : Registry) : Registry :=
  delete_all_connectors { r with components := [] }

/-- The loop body of make_all_components (design_base.py lines 137-143):
`for name, obj in self.components.items(): if is_component(obj): obj.make()`.
Components are mutated in place, so the entries already rebuilt keep
their new status even when a later `make()` raises; the returned flag
records whether an exception escaped the loop (the source has no
try/except, so the first raising `make()` aborts the iteration and the
remaining entries are left untouched). -/
def make_all_go : List (String × Component) → List (String × Component) × Bool
  | [] => ([], false)
  | (n, c) :: rest =>
    if c.is_component then
      match makeComponent c with
      | none => ((n, c) :: rest, true)
      | some c' =>
        let p := make_all_go rest
        ((n, c') :: p.1, p.2)
    else
      let p := make_all_go rest
      ((n, c) :: p.1, p.2)

/-- make_all_components (design_base.py lines 137-143).  The second
projection is `true` exactly when an exception propagated out of the
call. -/
def make_all_components (r : Registry) : Registry × Bool :=
  let p := make_all_go r.components
  ({ r with components := p.1 }, p.2)

/-- rename_component (design_base.py lines 145-170).  When the new name
is already a component key the source logs and returns -1 without
mutating.  On every other input the source raises NameError: line 164
calls `is_valid_component_name`, which is defined nowhere in the module
and never imported, and line 169 is the bare expression `TODO`; the
raise is embedded as `none`.  (The documented success value 1 / True is
unreachable.) -/
def rename_component (r : Registry)
    (component_name new_component_name : String) :
    Option (Int × Registry) :=
  if dictContains r.components new_component_name then some (-1, r)
  else none

/-- The connector-removal loop of _delete_component (design_base.py
lines 209-212): `self.connectors.pop(c_name)` for each recorded
connector name.  `pop` without a default raises KeyError when the name
is not a connector key, embedded as `none`. -/
def pop_connectors :
    List String → List (String × Connector) → Option (List (String × Connector))
  | [], conns => some conns
  | n :: rest, conns =>
    if dictContains conns n then pop_connectors rest (dictPopD conns n)
    else none

/-- _delete_component (design_base.py lines 203-217): pops every
connector named in the component's `connector_names`, then pops the
component itself (this time with a None default), and returns True.
(The `none` component branch mirrors the addict Dict auto-creating an
empty entry: an empty `connector_names`, so nothing is popped.) -/
def delete_component_unchecked (r : Registry) (component_name : String) :
    Option (Bool × Registry) :=
  match dictGet r.components component_name with
  | none => some (true, { r with components := dictPopD r.components component_name })
  | some comp =>
    match pop_connectors comp.connector_names r.connectors with
    | none => none
    | some conns' =>
      some (true, { r with components := dictPopD r.components component_name
                           connectors := conns' })

/-- delete_component (design_base.py lines 172-201): returns True when
the name is absent; otherwise deletes unconditionally via
_delete_component.  The dependency check described in the docstring is
only a comment in the source, so `force` is never consulted. -/
def delete_component (r : Registry) (component_name : String) (force : Bool) :
    Option (Bool × Registry) :=
  if !(dictContains r.components component_name) then some (true, r)
  else delete_component_unchecked r component_name

/-- The `parent` argument of add_connector: a component object, a
string, or None (design_base.py lines 309-325). -/
inductive ParentArg where
  | comp (c : Component)
  | str (s : String)
  | none_

/-- The parent resolution in add_connector (design_base.py lines
322-325): a component satisfying the is_component capability is
replaced by its name, None becomes the sentinel "none", and a string
passes through.  (An object that fails the capability probe would be
stored as the raw object; that heterogeneous case is outside this
String-valued embedding and outside every claim.) -/
def resolve_parent : ParentArg → String
  | .comp c => c.name
  | .str s => s
  | .none_ => "none"

/-- add_connector (design_base.py lines 309-329): resolves the parent
to a name and assigns `connectors[name] = make_connector(...)` —
a plain dict assignment, so an existing name is silently overwritten.
`none` only when make_connector's length assertion fails. -/
noncomputable def add_connector (r : Registry) (name : String)
    (points : List (ℝ × ℝ)) (parent : ParentArg) (flip : Bool)
    (chip : String) : Option Registry :=
  match make_connector points (resolve_parent parent) flip chip with
  | none => none
  | some conn => some { r with connectors := dictInsert r.connectors name conn }

/-- ComponentsTableModel.rowCount (components_model.py lines 92-96):
the size of the design's component dict, or 0 with no design attached. -/
def rowCount (design : Option Registry) : Nat :=
  match design with
  | some d => d.components.length
  | none => 0

/-- The component-name lookup of ComponentsTableModel.data at column 0
(components_model.py line 138):
`list(self.design.components.keys())[index.row()]`, `none` standing for
the IndexError on an out-of-range row. -/
def componentAt (d : Registry) (row : Nat) : Option String :=
  (d.components.map Prod.fst).get? row

/-! Concrete registry states used to evaluate the operations. -/

/-- A component named x that records no connector names. -/
def compX : Component :=
  { name := "x", class_name := "Q", module_name := "m", status := "unbuilt"
    is_component := true, connector_names := [], make_fails := false }

/-- A component named x that records the connector name c. -/
def compXW : Component := { compX with connector_names := ["c"] }

/-- A connector whose parent_name is the component name x. -/
noncomputable def connPx : Connector :=
  { points := [], middle := (0, 0), normal := (0, 0), tangent := (0, 0)
    width := 0, chip := "main", parent_name := "x" }

/-- A registry holding component x and a connector c attached to x by
parent_name only (x's connector_names does not list c — the state
add_connector itself produces, since it never updates the parent
component's connector_names). -/
noncomputable def regDep : Registry :=
  { components := [("x", compX)], connectors := [("c", connPx)]
    _variables := [], _chips := [] }

/-- regDep after component x has been removed: connector c survives. -/
noncomputable def regDepDel : Registry :=
  { components := [], connectors := [("c", connPx)]
    _variables := [], _chips := [] }

/-- A registry where x's connector_names does list connector c. -/
noncomputable def regOwn : Registry :=
  { components := [("x", compXW)], connectors := [("c", connPx)]
    _variables := [], _chips := [] }

/-- The empty registry (the result of deleting x from regOwn). -/
def regEmpty : Registry :=
  { components := [], connectors := [], _variables := [], _chips := [] }

/-- A registry holding a single component named a. -/
def regA : Registry :=
  { components := [("a", compX)], connectors := [], _variables := [], _chips := [] }

/-- A connector whose parent_name is Q, stored under the name c. -/
noncomputable def connQ : Connector :=
  { points := [], middle := (0, 0), normal := (0, 0), tangent := (0, 0)
    width := 0, chip := "main", parent_name := "Q" }

/-- A registry already holding a connector named c (parent Q). -/
noncomputable def regConnC : Registry :=
  { components := [], connectors := [("c", connQ)], _variables := [], _chips := [] }

/-- A component whose make() raises. -/
def compFail : Component :=
  { name := "a", class_name := "QFail", module_name := "m", status := "unbuilt"
    is_component := true, connector_names := [], make_fails := true }

/-- A component whose make() succeeds. -/
def compGood : Component :=
  { name := "b", class_name := "QGood", module_name := "m", status := "unbuilt"
    is_component := true, connector_names := [], make_fails := false }

/-- A registry of two buildable components where the first make() raises. -/
def regFailFirst : Registry :=
  { components := [("a", compFail), ("b", compGood)], connectors := []
    _variables := [], _chips := [] }

/-- An entry that fails the is_component capability probe (its
make_fails flag is irrelevant since make() is never reached). -/
def compSkip : Component :=
  { name := "s", class_name := "NotAComponent", module_name := "m"
    status := "unbuilt", is_component := false, connector_names := []
    make_fails := true }

/-- A registry mixing a capability-holding component and an entry that
fails the capability probe. -/
def regMixed : Registry :=
  { components := [("g", { compGood with name := "g" }), ("s", compSkip)]
    connectors := [], _variables := [], _chips := [] }

/-! Helper lemmas about the dictionary embedding. -/

theorem dictGet_some_contains {α : Type} (d : List (String × α)) (k : String)
    (v : α) : dictGet d k = some v → dictContains d k = true := by
  induction d with
  | nil => intro h; cases h
  | cons p rest ih =>
    intro h
    unfold dictGet at h
    unfold dictContains at ih ⊢
    rw [List.any_cons]
    cases hpk : (p.1 == k) with
    | true => simp [hpk]
    | false =>
      simp only [hpk, Bool.false_eq_true, if_false, Bool.false_or] at h ⊢
      exact ih h

theorem dictContains_dictPopD_self {α : Type} (d : List (String × α))
    (k : String) : dictContains (dictPopD d k) k = false := by
  unfold dictContains dictPopD
  rw [List.any_eq_false]
  intro p hp
  have h2 := (List.mem_filter.mp hp).2
  simp only [Bool.not_eq_true'] at h2
  simp [h2]

theorem dictContains_dictPopD_false {α : Type} (d : List (String × α))
    (n k : String) (h : dictContains d k = false) :
    dictContains (dictPopD d n) k = false := by
  unfold dictContains at h ⊢
  unfold dictPopD
  rw [List.any_eq_false] at h ⊢
  intro p hp
  exact h p (List.mem_filter.mp hp).1

theorem pop_connectors_mono (ns : List String) :
    ∀ (cs cs' : List (String × Connector)) (k : String),
      pop_connectors ns cs = some cs' → dictContains cs k = false →
      dictContains cs' k = false := by
  induction ns with
  | nil =>
    intro cs cs' k h hk
    cases h
    exact hk
  | cons m rest ih =>
    intro cs cs' k h hk
    unfold pop_connectors at h
    by_cases hc : dictContains cs m = true
    · rw [if_pos hc] at h
      exact ih _ _ _ h (dictContains_dictPopD_false _ _ _ hk)
    · rw [if_neg hc] at h
      cases h

theorem pop_connectors_removes (ns : List String) :
    ∀ (cs cs' : List (String × Connector)),
      pop_connectors ns cs = some cs' →
      ∀ n ∈ ns, dictContains cs' n = false := by
  induction ns with
  | nil =>
    intro cs cs' _ n hn
    cases hn
  | cons m rest ih =>
    intro cs cs' h n hn
    unfold pop_connectors at h
    by_cases hc : dictContains cs m = true
    · rw [if_pos hc] at h
      rcases List.mem_cons.mp hn with rfl | hn'
      · exact pop_connectors_mono rest _ _ _ h (dictContains_dictPopD_self _ _)
      · exact ih _ _ h n hn'
    · rw [if_neg hc] at h
      cases h

theorem make_all_go_get_noncap :
    ∀ (l : List (String × Component)) (i : Nat) (n : String) (c : Component),
      l.get? i = some (n, c) → c.is_component = false →
      (make_all_go l).1.get? i = some (n, c) := by
  intro l
  induction l with
  | nil => intro i n c hi _; cases hi
  | cons p rest ih =>
    intro i n c hi hnc
    obtain ⟨m, d⟩ := p
    unfold make_all_go
    by_cases hd : d.is_component = true
    · rw [if_pos hd]
      cases hmk : makeComponent d with
      | none => exact hi
      | some d' =>
        cases i with
        | zero =>
          exfalso
          have hdc : d = c := congrArg Prod.snd (Option.some.inj hi)
          rw [hdc, hnc] at hd
          cases hd
        | succ j => exact ih j n c hi hnc
    · rw [if_neg hd]
      cases i with
      | zero => exact hi
      | succ j => exact ih j n c hi hnc

theorem make_all_go_no_raise :
    ∀ l : List (String × Component),
      (∀ (m : String) (d : Component), (m, d) ∈ l →
        d.is_component = true → d.make_fails = false) →
      (make_all_go l).2 = false := by
  intro l
  induction l with
  | nil => intro _; rfl
  | cons p rest ih =>
    intro h
    obtain ⟨m, d⟩ := p
    unfold make_all_go
    by_cases hd : d.is_component = true
    · have hmf : d.make_fails = false := h m d (List.mem_cons_self _ _) hd
      rw [if_pos hd]
      cases hmk : makeComponent d with
      | none =>
        exfalso
        unfold makeComponent at hmk
        rw [hmf] at hmk
        cases hmk
      | some d' =>
        show (make_all_go rest).2 = false
        exact ih (fun m' d' hm => h m' d' (List.mem_cons_of_mem _ hm))
    · rw [if_neg hd]
      show (make_all_go rest).2 = false
      exact ih (fun m' d' hm => h m' d' (List.mem_cons_of_mem _ hm))

theorem map_fst_append_get_last {α : Type} (l : List (String × α))
    (k : String) (c : α) :
    ((l ++ [(k, c)]).map Prod.fst).get? l.length = some k := by
  rw [List.map_append]
  rw [List.get?_append_right (by simp)]
  simp

/-! The claims. -/

/-- C1 counterexample: in regDep the connector c has parent_name x, but
x's connector_names does not record it; delete_component(x, force=True)
succeeds and yet c — a connector whose parent_name equals x — is still
in the connector mapping, refuting the claim as stated. -/
theorem claim_C1_counterexample :
    delete_component regDep "x" true = some (true, regDepDel) ∧
    dictContains regDepDel.connectors "c" = true ∧
    (dictGet regDepDel.connectors "c").map Connector.parent_name = some "x" ∧
    dictContains regDepDel.components "x" = false :=
  ⟨rfl, rfl, rfl, rfl⟩

/-- C1 (amended): for every registry and component name x present in it,
when delete_component(x, force=True) returns, x is absent from the
component mapping and every connector whose name is recorded in x's
connector_names is absent from the connector mapping; a connector whose
parent_name equals x but whose name is not recorded there is not
removed. -/
theorem claim_C1_thm (r r' : Registry) (name : String) (comp : Component)
    (hget : dictGet r.components name = some comp)
    (hdel : delete_component r name true = some (true, r')) :
    (∀ n ∈ comp.connector_names, dictContains r'.connectors n = false) ∧
    dictContains r'.components name = false := by
  have hcont : dictContains r.components name = true :=
    dictGet_some_contains _ _ _ hget
  unfold delete_component at hdel
  rw [hcont] at hdel
  simp only [Bool.not_true, Bool.false_eq_true, if_false] at hdel
  unfold delete_component_unchecked at hdel
  split at hdel
  · rename_i heq
    rw [hget] at heq
    cases heq
  · rename_i comp2 heq
    rw [hget] at heq
    have hc2 : comp = comp2 := Option.some.inj heq
    subst hc2
    split at hdel
    · cases hdel
    · rename_i conns' hpop
      have hXr := congrArg Prod.snd (Option.some.inj hdel)
      dsimp only at hXr
      constructor
      · intro n hn
        rw [← hXr]
        exact pop_connectors_removes _ _ _ hpop n hn
      · rw [← hXr]
        exact dictContains_dictPopD_self _ _

/-- C1 witness: the amended theorem evaluated on regOwn, where x's
connector_names records connector c; the deletion removes both x and
c, leaving the empty registry. -/
theorem claim_C1_witness :
    (∀ n ∈ compXW.connector_names, dictContains regEmpty.connectors n = false) ∧
    dictContains regEmpty.components "x" = false :=
  claim_C1_thm regOwn regEmpty "x" compXW rfl rfl

/-- C2: code-bug evaluation — on a registry where connector c depends
on component x (its parent_name is x) delete_component(x, force=False)
still returns True and removes x: the dependency check of the claim and
of the source docstring exists only as a comment in the source, so the
refusal never happens.  (The other half of the claim does hold in the
code: deleting an absent name is a no-op returning True.) -/
theorem claim_C2_thm :
    (dictGet regDep.connectors "c").map Connector.parent_name = some "x" ∧
    delete_component regDep "x" false = some (true, regDepDel) ∧
    dictContains regDepDel.components "x" = false ∧
    delete_component regDep "absent" false = some (true, regDep) :=
  ⟨rfl, rfl, rfl, rfl⟩

/-- C3: code-bug evaluation — rename_component returns -1 without
mutating when the new name is already a component key, but on every
other input it raises NameError (line 164 calls the undefined
is_valid_component_name, line 169 is the bare expression TODO), so the
InvalidName check of the new name and the rename with its connector
carry-over never happen. -/
theorem claim_C3_thm :
    rename_component regA "a" "b" = none ∧
    rename_component regA "a" "a" = some (-1, regA) :=
  ⟨rfl, rfl⟩

/-- C5: code-bug evaluation — make_all_components on a registry whose
first component's make() raises lets the exception propagate (second
projection true) and aborts the loop with every entry left untouched:
the sibling b is never rebuilt (status still unbuilt), against the
claim that the call does not raise and leaves the other N-1 components
Good. -/
theorem claim_C5_thm :
    make_all_components regFailFirst = (regFailFirst, true) ∧
    (dictGet (make_all_components regFailFirst).1.components "b").map
        Component.status = some "unbuilt" :=
  ⟨rfl, rfl⟩

/-- C7: delete_all_components empties both the component mapping and
the connector mapping of every registry — all connectors are removed
unconditionally, including those whose parent component was never
deleted individually or whose parent_name is the sentinel none. -/
theorem claim_C7_thm (r : Registry) :
    (delete_all_components r).components = [] ∧
    (delete_all_components r).connectors = [] :=
  ⟨rfl, rfl⟩

/-- C4: code-bug evaluation — add_connector with a name already present
in the connector mapping silently overwrites the stored connector (the
entry keyed c changes parent from Q to P while the mapping keeps size
one) instead of failing with DuplicateName and leaving the mapping
unchanged. -/
theorem claim_C4_thm :
    (dictGet regConnC.connectors "c").map Connector.parent_name = some "Q" ∧
    (add_connector regConnC "c" [(0, 0), (1, 0)] (ParentArg.str "P") false
        "main").map
      (fun r' => ((dictGet r'.connectors "c").map Connector.parent_name,
        r'.connectors.length)) = some (some "P", 1) :=
  ⟨rfl, rfl⟩

/-- C6: code-bug evaluation — make_connector on two coincident points
does not fail with DegenerateConnector: it returns a connector of width
0 whose tangent and normal come from dividing by the zero norm (NaN in
the numpy source; the junk value 0 of real division by zero in this
embedding). -/
theorem claim_C6_thm :
    (make_connector [((0 : ℝ), 0), (0, 0)] "P" false "main").map
      (fun c => (c.width, c.tangent, c.normal)) =
      some (0, (0, 0), (0, 0)) := by
  simp [make_connector, vec_unit_norm]

theorem sqrt_four : Real.sqrt 4 = 2 := by
  rw [show (4 : ℝ) = 2 ^ 2 by norm_num]
  exact Real.sqrt_sq (by norm_num)

/-- C8: make_connector on the two points (0,0) and (2,0) yields width 2,
tangent (1,0) and middle (1,0); and for every valid two-point input the
normal returned with flip=True is the negation of the normal returned
with flip=False while every other field is equal. -/
theorem claim_C8_thm :
    (make_connector [((0 : ℝ), 0), (2, 0)] "P" false "main").map
      (fun c => (c.width, c.tangent, c.middle)) = some (2, (1, 0), (1, 0)) ∧
    (∀ (p0 p1 : ℝ × ℝ) (parent chip : String), p0 ≠ p1 →
      ∃ cT cF, make_connector [p0, p1] parent true chip = some cT ∧
        make_connector [p0, p1] parent false chip = some cF ∧
        cT.normal = (-cF.normal.1, -cF.normal.2) ∧
        cT.points = cF.points ∧ cT.middle = cF.middle ∧
        cT.tangent = cF.tangent ∧ cT.width = cF.width ∧
        cT.chip = cF.chip ∧ cT.parent_name = cF.parent_name) := by
  constructor
  · norm_num [make_connector, vec_unit_norm, sqrt_four]
  · intro p0 p1 parent chip _
    exact ⟨_, _, rfl, rfl, rfl, rfl, rfl, rfl, rfl, rfl, rfl⟩

/-- C8 witness: the flip clause of the theorem applied to the concrete
nondegenerate input (0,0), (2,0). -/
theorem claim_C8_witness :
    ∃ cT cF,
      make_connector [((0 : ℝ), 0), (2, 0)] "P" true "main" = some cT ∧
      make_connector [((0 : ℝ), 0), (2, 0)] "P" false "main" = some cF ∧
      cT.normal = (-cF.normal.1, -cF.normal.2) ∧
      cT.points = cF.points ∧ cT.middle = cF.middle ∧
      cT.tangent = cF.tangent ∧ cT.width = cF.width ∧
      cT.chip = cF.chip ∧ cT.parent_name = cF.parent_name :=
  claim_C8_thm.2 (0, 0) (2, 0) "P" "main" (by norm_num [Prod.ext_iff])

/-- C9: rowCount equals the number of entries in the design's component
mapping and is 0 when no design is attached; the column-0 data lookup
yields the row-th component name in insertion order, and a component
stored under a fresh name appears at the last row. -/
theorem claim_C9_thm (r : Registry) (row : Nat) :
    rowCount (some r) = r.components.length ∧
    rowCount (Option.none) = 0 ∧
    (∀ h : row < r.components.length,
      componentAt r row = some ((r.components.get ⟨row, h⟩).1)) ∧
    (∀ (k : String) (c : Component), dictContains r.components k = false →
      componentAt { r with components := dictInsert r.components k c }
        r.components.length = some k) := by
  refine ⟨rfl, rfl, ?_, ?_⟩
  · intro h
    unfold componentAt
    rw [List.get?_map, List.get?_eq_get h]
    rfl
  · intro k c hk
    unfold componentAt dictInsert
    dsimp only
    rw [hk]
    simp only [Bool.false_eq_true, if_false]
    exact map_fst_append_get_last _ _ _

/-- C9 witness: the theorem evaluated on the one-component registry
regA — row 0 shows the first (and only) name, and a fresh component
inserted under the name z shows up at the new last row. -/
theorem claim_C9_witness :
    componentAt regA 0 = some ((regA.components.get ⟨0, by decide⟩).1) ∧
    componentAt { regA with components := dictInsert regA.components "z" compGood }
      regA.components.length = some "z" :=
  ⟨(claim_C9_thm regA 0).2.2.1 (by decide),
   (claim_C9_thm regA 0).2.2.2 "z" compGood (by decide)⟩

/-- C10: make_all_components invokes make() only on entries satisfying
the is_component capability check: an entry failing the check keeps its
position and value unchanged, and such entries never contribute an
exception — when every capability-holding component has a non-raising
make(), the call completes without raising regardless of the skipped
entries. -/
theorem claim_C10_thm (r : Registry) (i : Nat) (n : String) (c : Component)
    (hi : r.components.get? i = some (n, c)) (hnc : c.is_component = false) :
    (make_all_components r).1.components.get? i = some (n, c) ∧
    ((∀ (m : String) (d : Component), (m, d) ∈ r.components →
        d.is_component = true → d.make_fails = false) →
      (make_all_components r).2 = false) := by
  constructor
  · exact make_all_go_get_noncap _ i n c hi hnc
  · intro h
    exact make_all_go_no_raise _ h

/-- C10 witness: the theorem evaluated on regMixed at row 1, the entry
s that fails the capability check (and whose make() would raise); it
survives in place unchanged. -/
theorem claim_C10_witness :
    (make_all_components regMixed).1.components.get? 1 = some ("s", compSkip) ∧
    ((∀ (m : String) (d : Component), (m, d) ∈ regMixed.components →
        d.is_component = true → d.make_fails = false) →
      (make_all_components regMixed).2 = false) :=
  claim_C10_thm regMixed 1 "s" compSkip (by decide) (by decide)

end DesignModel
